import Mathlib

/-!
Verification of the AZNFS-mount cache/consistency engine specification
against the configuration header `src/turbonfs/inc/aznfsc.h`.

The repository source available here is the configuration header; the
cache, retry and consistency algorithms it configures are declared and
documented there but their bodies live elsewhere in the repository.
Definitions below that embed those algorithms are marked
`Modelled from the spec:` and follow the specification text; everything
else is translated directly from the header.
-/

namespace AZNFS

/-! ## Compile-time constants from aznfsc.h -/

/-- Max block size for a Blob (100MB), `AZNFSC_MAX_BLOCK_SIZE` in aznfsc.h. -/
def AZNFSC_MAX_BLOCK_SIZE : Nat := 100 * 1024 * 1024

/-- `AZNFSCFG_RSIZE_MAX` in aznfsc.h. -/
def AZNFSCFG_RSIZE_MAX : Nat := AZNFSC_MAX_BLOCK_SIZE

/-- `AZNFSCFG_WSIZE_MAX` in aznfsc.h. -/
def AZNFSCFG_WSIZE_MAX : Nat := AZNFSC_MAX_BLOCK_SIZE

/-- `AZNFSC_MAX_FILE_SIZE` in aznfsc.h: without jumbo blocks,
50000 blocks is the max file size supported. -/
def AZNFSC_MAX_FILE_SIZE : Nat := 50000 * AZNFSC_MAX_BLOCK_SIZE

/-- `AZNFSCFG_LOOKUPCACHE_NONE` in aznfsc.h. -/
def AZNFSCFG_LOOKUPCACHE_NONE : Nat := 1

/-- `AZNFSCFG_LOOKUPCACHE_POS` in aznfsc.h. -/
def AZNFSCFG_LOOKUPCACHE_POS : Nat := 2

/-- `AZNFSCFG_LOOKUPCACHE_ALL` in aznfsc.h. -/
def AZNFSCFG_LOOKUPCACHE_ALL : Nat := 3

/-- `AZNFSCFG_LOOKUPCACHE_DEF` in aznfsc.h. -/
def AZNFSCFG_LOOKUPCACHE_DEF : Nat := AZNFSCFG_LOOKUPCACHE_ALL

/-! ## Consistency levels (enum class consistency_t in aznfsc.h) -/

/-- The consistency levels supported, from `enum class consistency_t` in
aznfsc.h: `INVALID = 0, SOLOWRITER, STANDARDNFS, AZUREMPA`.
`INVALID` is the unset sentinel; the selectable modes are the other three. -/
inductive consistency_t where
  | INVALID
  | SOLOWRITER
  | STANDARDNFS
  | AZUREMPA
deriving DecidableEq

/-- A consistency value denotes an actual mount-time mode iff it is not the
`INVALID` sentinel. -/
def consistency_t.isValid (m : consistency_t) : Bool := m != consistency_t.INVALID

/-- Modelled from the spec: the Consistency Coordinator's decision whether an
open() on an object with a warm attribute-cache entry must issue a synchronous
GETATTR revalidation, given whether the entry's current_ttl has expired.
The coordinator body is not under src/; per spec section 4.2:
exclusive-writer mode skips revalidation once an entry is warm, standard-NFS
mode revalidates whenever TTL expires or on open, and multi-protocol-access
mode forces a synchronous revalidation on every open regardless of remaining
TTL. The `INVALID` sentinel never reaches the coordinator; it is mapped to
the conservative choice. -/
def must_revalidate_on_open (m : consistency_t) (ttl_expired : Bool) : Bool :=
  match m with
  | .INVALID => true
  | .SOLOWRITER => false
  | .STANDARDNFS => true
  | .AZUREMPA => true

/-! ## Retry / idempotency (nodrc) policy -/

/-- Per-operation-class nodrc toggles, from `struct aznfsc_cfg::sys.nodrc`
in aznfsc.h: how to behave when a retransmitted RPC fails possibly due to
lack of federated DRC at the server. -/
structure NodrcCfg where
  remove_noent_as_success : Bool
  create_exist_as_success : Bool
  rename_noent_as_success : Bool
deriving DecidableEq

/-- The default nodrc configuration from aznfsc.h: all three
reclassification toggles are initialized to `true`. -/
def nodrc_default : NodrcCfg :=
  { remove_noent_as_success := true
    create_exist_as_success := true
    rename_noent_as_success := true }

/-- The modifying NFS operations wrapped by the retry/idempotency policy. -/
inductive NfsOp where
  | remove
  | rmdir
  | create
  | mknod
  | mkdir
  | symlink
  | rename
deriving DecidableEq

/-- NFS error codes relevant to the nodrc policy (`NFS3ERR_NOENT`,
`NFS3ERR_EXIST`) plus representatives of the unaffected codes. -/
inductive NfsErr where
  | noent
  | exist
  | access
  | io
deriving DecidableEq

/-- Outcome of an RPC as seen above the retry/idempotency policy. -/
inductive RpcOutcome where
  | success
  | failure (e : NfsErr)
deriving DecidableEq

/-- Modelled from the spec: the Retry/Idempotency Policy body is not under
src/; per spec section 4.7 and the nodrc comments in aznfsc.h:
REMOVE/RMDIR failing with NFS3ERR_NOENT after retransmission is treated as
success (toggle `remove_noent_as_success`); CREATE/MKNOD/MKDIR/SYMLINK
failing with NFS3ERR_EXIST after retransmission is treated as success
(toggle `create_exist_as_success`); RENAME failing with NFS3ERR_NOENT after
retransmission is treated as success (toggle `rename_noent_as_success`).
The reclassification applies only when the call was in fact retransmitted;
a first-attempt failure is surfaced unchanged. -/
def reclassify (cfg : NodrcCfg) (op : NfsOp) (retransmitted : Bool)
    (r : RpcOutcome) : RpcOutcome :=
  match r with
  | .success => .success
  | .failure e =>
    if !retransmitted then .failure e
    else
      match op, e with
      | .remove, .noent =>
        if cfg.remove_noent_as_success then .success else .failure e
      | .rmdir, .noent =>
        if cfg.remove_noent_as_success then .success else .failure e
      | .create, .exist =>
        if cfg.create_exist_as_success then .success else .failure e
      | .mknod, .exist =>
        if cfg.create_exist_as_success then .success else .failure e
      | .mkdir, .exist =>
        if cfg.create_exist_as_success then .success else .failure e
      | .symlink, .exist =>
        if cfg.create_exist_as_success then .success else .failure e
      | .rename, .noent =>
        if cfg.rename_noent_as_success then .success else .failure e
      | _, _ => .failure e

/-! ## Attribute cache with adaptive TTL -/

/-- Per-object attribute-cache state. Modelled from the spec: the Attribute
Cache body is not under src/; the aznfsc.h comment on acregmin..actimeo
documents the algorithm: a successful attribute revalidation (mtime remains
unchanged) doubles the attribute timeout up to acregmax/acdirmax, while a
failed revalidation resets it to acregmin/acdirmin; spec section 4.1 adds the
generation bump and first-fetch behaviour. `has_entry` is false before the
first fetch and after an explicit invalidation. -/
structure AttrCache where
  min_ttl : Nat
  max_ttl : Nat
  current_ttl : Nat
  generation : Nat
  cached_mtime : Nat
  has_entry : Bool
deriving DecidableEq

/-- Modelled from the spec: attribute refresh (spec section 4.1). If an entry
exists and the GETATTR-returned mtime equals the cached mtime, the refresh is
a successful revalidation: double `current_ttl`, capped at `max_ttl`.
Otherwise (changed mtime, or first fetch) it is a miss: set
`current_ttl = min_ttl` and bump the generation. -/
def refresh (c : AttrCache) (mtime : Nat) : AttrCache :=
  if c.has_entry && (mtime == c.cached_mtime) then
    { c with current_ttl := min (2 * c.current_ttl) c.max_ttl }
  else
    { c with
        current_ttl := c.min_ttl
        generation := c.generation + 1
        cached_mtime := mtime
        has_entry := true }

/-- Modelled from the spec: explicit invalidation (spec sections 4.1 and 8,
Miss reset): sets `current_ttl = min_ttl`, strictly increments the
generation, and forces a miss classification on next access. -/
def invalidate (c : AttrCache) : AttrCache :=
  { c with
      current_ttl := c.min_ttl
      generation := c.generation + 1
      has_entry := false }

/-- N consecutive successful revalidations: each refresh returns the same
mtime as the cached one. -/
def revalidateN (c : AttrCache) : Nat → AttrCache
  | 0 => c
  | n + 1 => refresh (revalidateN c n) c.cached_mtime

/-! ## Data cache / file cache chunks and generation gating -/

/-- In-memory data-cache chunk: byte range plus the attribute-cache
generation it was populated under. Modelled from the spec (data model,
DataChunk). -/
structure DataChunk where
  off : Nat
  len : Nat
  generation : Nat
deriving DecidableEq

/-- File-cache (disk tier) chunk, keyed like DataChunk. Modelled from the
spec (data model, PersistedChunk). -/
structure PersistedChunk where
  off : Nat
  len : Nat
  generation : Nat
deriving DecidableEq

/-- Modelled from the spec: invariant I1 gate — a data chunk is servable to
a read only if its generation equals the object's current attribute-cache
generation. -/
def chunk_servable (objGen : Nat) (ch : DataChunk) : Bool :=
  ch.generation == objGen

/-- Modelled from the spec: a read consults cached DataChunks; any chunk
whose generation is stale is dropped, so only generation-matching chunks are
returned to the read. -/
def serve_read (objGen : Nat) (chunks : List DataChunk) : List DataChunk :=
  chunks.filter (fun ch => ch.generation == objGen)

/-- Modelled from the spec: a PersistedChunk is always validated against the
current attribute-cache generation before being served. -/
def serve_persisted (objGen : Nat) (chunks : List PersistedChunk) :
    List PersistedChunk :=
  chunks.filter (fun ch => ch.generation == objGen)

/-! ## Write flush policy (stable vs unstable with fallback) -/

/-- How a single write is sent on the wire. -/
inductive WriteMode where
  | stable
  | unstable
deriving DecidableEq

/-- Per-open-handle write state. `force_stable` starts as
`aznfsc_cfg::sys.force_stable_writes` and becomes permanently true on
fallback; `max_end` is the high-water mark of bytes written through this
handle. Modelled from the spec (section 4.5) and the
`sys.force_stable_writes` comment in aznfsc.h: if set, stable writes are
forced, else we start with unstable write and fallback to stable in case of
non-append write pattern. -/
structure WriteHandle where
  force_stable : Bool
  max_end : Nat
deriving DecidableEq

/-- Modelled from the spec: issue one write of `len` bytes at offset `off`
through a handle. Forced-stable handles send every write stable. Otherwise
an append-pattern write (at or beyond the high-water mark) is sent unstable;
a non-append write (overwriting previously written ranges out of order)
triggers the permanent fallback to forced-stable. -/
def do_write (h : WriteHandle) (off len : Nat) : WriteMode × WriteHandle :=
  if h.force_stable then
    (.stable, { h with max_end := max h.max_end (off + len) })
  else if h.max_end ≤ off then
    (.unstable, { h with max_end := off + len })
  else
    (.stable, { force_stable := true, max_end := max h.max_end (off + len) })

/-- Issue a sequence of (offset, length) writes through a handle, collecting
the wire mode of each write and the final handle state. -/
def run_writes (h : WriteHandle) : List (Nat × Nat) → List WriteMode × WriteHandle
  | [] => ([], h)
  | (off, len) :: ws =>
    let r := do_write h off len
    let rest := run_writes r.2 ws
    (r.1 :: rest.1, rest.2)

/-! ## Lookup cache gating -/

/-- Outcome of a wire LOOKUP: the name resolved (positive) or was confirmed
absent (negative). -/
inductive LookupOutcome where
  | positive
  | negative
deriving DecidableEq

/-- Modelled from the spec: whether a LOOKUP result populates the lookup
cache, gated by the `lookupcache_int` setting (spec section 4.3): cache
nothing, cache positive results only, or cache both positive and negative. -/
def caches_lookup_result (mode : Nat) (r : LookupOutcome) : Bool :=
  if mode == AZNFSCFG_LOOKUPCACHE_ALL then true
  else if mode == AZNFSCFG_LOOKUPCACHE_POS then r == .positive
  else false

/-! ## The aznfsc_cfg configuration structure -/

/-- The mutable configuration surface of `struct aznfsc_cfg` in aznfsc.h
that the verified claims touch. C++ members declared `const` with an
in-class initializer (`cache.readdir.user.enable` and
`cache.data.user.enable`, both `const bool ... = true`) cannot be written by
any configuration path, so they are embedded as constant accessors below
rather than as mutable fields. -/
structure aznfsc_cfg where
  debug : Bool
  acregmin : Int
  acregmax : Int
  acdirmin : Int
  acdirmax : Int
  actimeo : Int
  lookupcache_int : Nat
  consistency_int : consistency_t
  cache_attr_user_enable : Bool
  cache_readdir_kernel_enable : Bool
  cache_readdir_user_max_size_mb : Int
  cache_data_kernel_enable : Bool
  cache_data_user_max_size_mb : Int
  filecache_enable : Bool
  force_stable_writes : Bool
  nodrc : NodrcCfg
deriving DecidableEq

/-- `aznfsc_cfg::cache.readdir.user.enable` in aznfsc.h: declared
`const bool enable = true` (the userspace readdir cache cannot be disabled
currently), hence a constant accessor. -/
def aznfsc_cfg.cache_readdir_user_enable (_ : aznfsc_cfg) : Bool := true

/-- `aznfsc_cfg::cache.data.user.enable` in aznfsc.h: declared
`const bool enable = true` (the userspace data cache cannot be disabled as
it is needed for performing any IO operation), hence a constant accessor. -/
def aznfsc_cfg.cache_data_user_enable (_ : aznfsc_cfg) : Bool := true

/-! ## Helper lemmas -/

/-- Doubling then capping a value already capped at M is the same as capping
the doubled uncapped value. -/
theorem min_double_cap (b M : Nat) : min (2 * min b M) M = min (2 * b) M := by
  omega

/-- A refresh returning the cached mtime on an existing entry takes the
successful-revalidation branch. -/
theorem refresh_hit (x : AttrCache) (m : Nat) (h1 : x.has_entry = true)
    (h2 : m = x.cached_mtime) :
    refresh x m = { x with current_ttl := min (2 * x.current_ttl) x.max_ttl } := by
  simp [refresh, h1, h2]

/-- Field-level description of N consecutive successful revalidations: all
fields other than `current_ttl` are unchanged, and `current_ttl` follows the
capped doubling sequence. -/
theorem revalidateN_spec (c : AttrCache) (hent : c.has_entry = true)
    (hle : c.current_ttl ≤ c.max_ttl) :
    ∀ n, (revalidateN c n).has_entry = true ∧
      (revalidateN c n).cached_mtime = c.cached_mtime ∧
      (revalidateN c n).max_ttl = c.max_ttl ∧
      (revalidateN c n).min_ttl = c.min_ttl ∧
      (revalidateN c n).current_ttl = min (c.current_ttl * 2 ^ n) c.max_ttl := by
  intro n
  induction n with
  | zero =>
    refine ⟨hent, rfl, rfl, rfl, ?_⟩
    simp only [revalidateN, pow_zero, mul_one]
    omega
  | succ n ih =>
    obtain ⟨h1, h2, h3, h4, h5⟩ := ih
    rw [revalidateN, refresh_hit _ _ h1 h2.symm]
    refine ⟨h1, h2, h3, h4, ?_⟩
    simp only [h5, h3]
    rw [min_double_cap]
    have hpow : c.current_ttl * 2 ^ (n + 1) = 2 * (c.current_ttl * 2 ^ n) := by
      rw [pow_succ]; ring
    rw [hpow]

/-! ## Claim theorems -/

/-- Claim C1: for every object and every sequence of N consecutive
successful revalidations (GETATTR returning an mtime equal to the cached
mtime), the attribute cache's current_ttl after the N-th revalidation equals
min(min_ttl * 2^N, max_ttl); each successful revalidation doubles
current_ttl capped at max_ttl, and when min_ttl = max_ttl no growth
occurs. -/
theorem ttl_monotonic_bound (c : AttrCache) (N : Nat)
    (hmm : c.min_ttl ≤ c.max_ttl) (hent : c.has_entry = true)
    (hcur : c.current_ttl = c.min_ttl) :
    (revalidateN c N).current_ttl = min (c.min_ttl * 2 ^ N) c.max_ttl ∧
    (∀ n, (revalidateN c (n + 1)).current_ttl =
        min (2 * (revalidateN c n).current_ttl) c.max_ttl) ∧
    (c.min_ttl = c.max_ttl → (revalidateN c N).current_ttl = c.min_ttl) := by
  have hle : c.current_ttl ≤ c.max_ttl := by omega
  have hs := revalidateN_spec c hent hle
  refine ⟨?_, ?_, ?_⟩
  · rw [(hs N).2.2.2.2, hcur]
  · intro n
    obtain ⟨h1, h2, h3, h4, h5⟩ := hs n
    rw [revalidateN, refresh_hit _ _ h1 h2.symm]
    simp [h3]
  · intro heq
    rw [(hs N).2.2.2.2, hcur, heq]
    have h2N : (1 : Nat) ≤ 2 ^ N := Nat.one_le_pow N 2 (by omega)
    have hbig := Nat.mul_le_mul (le_refl c.max_ttl) h2N
    rw [mul_one] at hbig
    omega

/-- Witness for C1 at Scenario A values (min_ttl = 3, max_ttl = 60, N = 3):
the TTL after three successful revalidations is min(3 * 8, 60) = 24. -/
theorem ttl_monotonic_bound_witness :
    (⟨3, 60, 3, 0, 7, true⟩ : AttrCache).min_ttl ≤
      (⟨3, 60, 3, 0, 7, true⟩ : AttrCache).max_ttl ∧
    (⟨3, 60, 3, 0, 7, true⟩ : AttrCache).has_entry = true ∧
    (⟨3, 60, 3, 0, 7, true⟩ : AttrCache).current_ttl =
      (⟨3, 60, 3, 0, 7, true⟩ : AttrCache).min_ttl ∧
    (revalidateN ⟨3, 60, 3, 0, 7, true⟩ 3).current_ttl = min (3 * 2 ^ 3) 60 :=
  ⟨by decide, by decide, by decide,
    (ttl_monotonic_bound ⟨3, 60, 3, 0, 7, true⟩ 3
      (by decide) (by decide) (by decide)).1⟩

/-- Claim C2: any attribute refresh that observes a changed mtime (or any
first fetch), and any explicit invalidation, sets the object's current_ttl
to min_ttl and strictly increments the object's generation counter. -/
theorem miss_reset (c : AttrCache) (mtime : Nat)
    (h : mtime ≠ c.cached_mtime ∨ c.has_entry = false) :
    ((refresh c mtime).current_ttl = c.min_ttl ∧
     (refresh c mtime).generation = c.generation + 1) ∧
    ((invalidate c).current_ttl = c.min_ttl ∧
     (invalidate c).generation = c.generation + 1) := by
  have hcond : (c.has_entry && (mtime == c.cached_mtime)) = false := by
    rcases h with h | h
    · simp [h]
    · simp [h]
  refine ⟨?_, by simp [invalidate]⟩
  simp [refresh, hcond]

/-- Witness for C2: a refresh returning mtime 8 against cached mtime 7
resets the TTL from 24 to min_ttl = 3 and bumps the generation from 5 to 6;
so does an explicit invalidation. -/
theorem miss_reset_witness :
    ((8 : Nat) ≠ (⟨3, 60, 24, 5, 7, true⟩ : AttrCache).cached_mtime ∨
      (⟨3, 60, 24, 5, 7, true⟩ : AttrCache).has_entry = false) ∧
    (refresh ⟨3, 60, 24, 5, 7, true⟩ 8).current_ttl = 3 ∧
    (refresh ⟨3, 60, 24, 5, 7, true⟩ 8).generation = 6 ∧
    (invalidate (⟨3, 60, 24, 5, 7, true⟩ : AttrCache)).generation = 6 :=
  ⟨Or.inl (by decide),
   (miss_reset ⟨3, 60, 24, 5, 7, true⟩ 8 (Or.inl (by decide))).1.1,
   (miss_reset ⟨3, 60, 24, 5, 7, true⟩ 8 (Or.inl (by decide))).1.2,
   (miss_reset ⟨3, 60, 24, 5, 7, true⟩ 8 (Or.inl (by decide))).2.2⟩

/-- Claim C3: a DataChunk or PersistedChunk whose generation is G is never
returned to a read once the object's current attribute-cache generation
exceeds G, and a chunk is served only if its generation equals the object's
current generation. -/
theorem generation_gating (objGen : Nat) (dcs : List DataChunk)
    (pcs : List PersistedChunk) (dc : DataChunk) (pc : PersistedChunk)
    (hd : dc.generation < objGen) (hp : pc.generation < objGen) :
    dc ∉ serve_read objGen dcs ∧ pc ∉ serve_persisted objGen pcs ∧
    (∀ x ∈ serve_read objGen dcs, x.generation = objGen) ∧
    (∀ x ∈ serve_persisted objGen pcs, x.generation = objGen) ∧
    chunk_servable objGen dc = false := by
  refine ⟨?_, ?_, ?_, ?_, ?_⟩
  · intro hmem
    simp only [serve_read, List.mem_filter, beq_iff_eq] at hmem
    omega
  · intro hmem
    simp only [serve_persisted, List.mem_filter, beq_iff_eq] at hmem
    omega
  · intro x hx
    simp only [serve_read, List.mem_filter, beq_iff_eq] at hx
    exact hx.2
  · intro x hx
    simp only [serve_persisted, List.mem_filter, beq_iff_eq] at hx
    exact hx.2
  · simp only [chunk_servable, beq_eq_false_iff_ne, ne_eq]
    omega

/-- Witness for C3: a chunk written under generation 1 is not returned by a
read once the object's generation is 2, even though it is in the cache. -/
theorem generation_gating_witness :
    ({off := 0, len := 4, generation := 1} : DataChunk).generation < 2 ∧
    ({off := 0, len := 4, generation := 1} : DataChunk) ∉
      serve_read 2 [{off := 0, len := 4, generation := 1}] :=
  ⟨by decide,
   (generation_gating 2 [{off := 0, len := 4, generation := 1}] []
      {off := 0, len := 4, generation := 1}
      {off := 0, len := 4, generation := 0} (by decide) (by decide)).1⟩

/-- Claim C4: the retry/idempotency policy, independently configurable per
operation class, reclassifies exactly these post-retransmission failures as
success: remove/rmdir failing with NOENT, create/mknod/mkdir/symlink failing
with EXIST, and rename failing with NOENT. -/
theorem idempotency_reclassification (cfg : NodrcCfg) (op : NfsOp)
    (e : NfsErr) :
    reclassify cfg op true (.failure e) = .success ↔
      ((op = .remove ∨ op = .rmdir) ∧ e = .noent ∧
        cfg.remove_noent_as_success = true) ∨
      ((op = .create ∨ op = .mknod ∨ op = .mkdir ∨ op = .symlink) ∧
        e = .exist ∧ cfg.create_exist_as_success = true) ∨
      (op = .rename ∧ e = .noent ∧ cfg.rename_noent_as_success = true) := by
  obtain ⟨a, b, c⟩ := cfg
  cases op <;> cases e <;> cases a <;> cases b <;> cases c <;> decide

/-- Claim C5: the reclassification applies only when the call was actually
retransmitted; a first-attempt failure with the same error code is surfaced
unchanged. In particular a retransmitted remove of an already-removed object
reports success while a non-retransmitted remove of a nonexistent object
reports the NOENT failure. -/
theorem retransmit_gating (cfg : NodrcCfg) (op : NfsOp) (e : NfsErr) :
    reclassify cfg op false (.failure e) = .failure e ∧
    reclassify nodrc_default .remove true (.failure .noent) = .success ∧
    reclassify nodrc_default .remove false (.failure .noent) =
      .failure .noent :=
  ⟨rfl, rfl, rfl⟩

/-- Claim C6: the consistency mode is one of exactly three variants
(SOLOWRITER, STANDARDNFS, AZUREMPA; INVALID is the unset sentinel), and in
multi-protocol-access mode every open() forces a synchronous GETATTR
revalidation even when the TTL has not expired. -/
theorem consistency_three_modes (m : consistency_t) (ttl_expired : Bool) :
    (m.isValid = true ↔
      m = .SOLOWRITER ∨ m = .STANDARDNFS ∨ m = .AZUREMPA) ∧
    (consistency_t.SOLOWRITER ≠ consistency_t.STANDARDNFS ∧
     consistency_t.SOLOWRITER ≠ consistency_t.AZUREMPA ∧
     consistency_t.STANDARDNFS ≠ consistency_t.AZUREMPA) ∧
    must_revalidate_on_open .AZUREMPA ttl_expired = true ∧
    must_revalidate_on_open .AZUREMPA false = true := by
  refine ⟨by cases m <;> decide, by decide, rfl, rfl⟩

/-- A write through a forced-stable handle is stable and leaves the handle
forced-stable. -/
theorem do_write_stable_mono (h : WriteHandle) (off len : Nat)
    (hfs : h.force_stable = true) :
    (do_write h off len).1 = .stable ∧
    (do_write h off len).2.force_stable = true := by
  simp [do_write, hfs]

/-- Every write issued through a forced-stable handle goes out stable, and
the handle stays forced-stable. -/
theorem run_writes_all_stable (ws : List (Nat × Nat)) :
    ∀ h : WriteHandle, h.force_stable = true →
      (run_writes h ws).1.all (fun m => m == WriteMode.stable) = true ∧
      (run_writes h ws).2.force_stable = true := by
  induction ws with
  | nil => intro h hfs; simp [run_writes, hfs]
  | cons w ws ih =>
    intro h hfs
    obtain ⟨off, len⟩ := w
    have hd := do_write_stable_mono h off len hfs
    have hr := ih _ hd.2
    simp [run_writes, hd.1, hr.1, hr.2]

/-- Claim C7: the flush policy is either forced-stable (every write on the
handle goes out stable) or unstable-with-fallback: append-pattern writes go
out unstable, and a non-append write permanently switches the handle to
forced-stable, as in the [0,4096), [8192,12288), [4096,8192) scenario. -/
theorem write_flush_policy (hs hu : WriteHandle) (ws : List (Nat × Nat))
    (off len : Nat) (hfs : hs.force_stable = true)
    (hfu : hu.force_stable = false) :
    ((run_writes hs ws).1.all (fun m => m == WriteMode.stable) = true) ∧
    (hu.max_end ≤ off → (do_write hu off len).1 = .unstable) ∧
    (off < hu.max_end →
      (do_write hu off len).2.force_stable = true ∧
      (run_writes (do_write hu off len).2 ws).1.all
        (fun m => m == WriteMode.stable) = true) ∧
    (run_writes ⟨false, 0⟩ [(0, 4096), (8192, 4096), (4096, 4096)]).1 =
      [.unstable, .unstable, .stable] ∧
    (run_writes ⟨false, 0⟩
      [(0, 4096), (8192, 4096), (4096, 4096)]).2.force_stable = true := by
  refine ⟨(run_writes_all_stable ws hs hfs).1, ?_, ?_, by decide, by decide⟩
  · intro hle
    simp [do_write, hfu, hle]
  · intro hlt
    have hnle : ¬ (hu.max_end ≤ off) := by omega
    have hfb : (do_write hu off len).2.force_stable = true := by
      simp [do_write, hfu, hnle]
    exact ⟨hfb, (run_writes_all_stable ws _ hfb).1⟩

/-- Witness for C7: a handle mounted with forced-stable writes sends
everything stable, and the Scenario D write sequence on an unstable handle
yields unstable, unstable, stable. -/
theorem write_flush_policy_witness :
    ((run_writes ⟨true, 0⟩ []).1.all (fun m => m == WriteMode.stable)
      = true) ∧
    (run_writes ⟨false, 0⟩ [(0, 4096), (8192, 4096), (4096, 4096)]).1 =
      [.unstable, .unstable, .stable] :=
  ⟨(write_flush_policy ⟨true, 0⟩ ⟨false, 8⟩ [] 0 4 rfl rfl).1,
   (write_flush_policy ⟨true, 0⟩ ⟨false, 8⟩ [] 0 4 rfl rfl).2.2.2.1⟩

/-- Claim C8: the lookup cache policy has exactly three distinct settings —
cache nothing, cache positive results only, cache both positive and
negative — the default is cache-all, and whether a LOOKUP result populates
the cache is gated by the setting. -/
theorem lookupcache_policy (r : LookupOutcome) :
    AZNFSCFG_LOOKUPCACHE_NONE ≠ AZNFSCFG_LOOKUPCACHE_POS ∧
    AZNFSCFG_LOOKUPCACHE_NONE ≠ AZNFSCFG_LOOKUPCACHE_ALL ∧
    AZNFSCFG_LOOKUPCACHE_POS ≠ AZNFSCFG_LOOKUPCACHE_ALL ∧
    AZNFSCFG_LOOKUPCACHE_DEF = AZNFSCFG_LOOKUPCACHE_ALL ∧
    caches_lookup_result AZNFSCFG_LOOKUPCACHE_NONE r = false ∧
    caches_lookup_result AZNFSCFG_LOOKUPCACHE_POS .positive = true ∧
    caches_lookup_result AZNFSCFG_LOOKUPCACHE_POS .negative = false ∧
    caches_lookup_result AZNFSCFG_LOOKUPCACHE_ALL r = true := by
  cases r <;> decide

/-- Claim C9: the maximum configurable read and write request sizes are
equal (the static assertion in aznfsc.h), both equal the 100 MiB max block
size, and the maximum supported file size equals 50000 times the max block
size, i.e. 5242880000000 bytes. -/
theorem max_size_constants :
    AZNFSCFG_WSIZE_MAX = AZNFSCFG_RSIZE_MAX ∧
    AZNFSCFG_RSIZE_MAX = AZNFSC_MAX_BLOCK_SIZE ∧
    AZNFSC_MAX_BLOCK_SIZE = 104857600 ∧
    AZNFSC_MAX_FILE_SIZE = 50000 * AZNFSC_MAX_BLOCK_SIZE ∧
    AZNFSC_MAX_FILE_SIZE = 5242880000000 := by
  refine ⟨rfl, rfl, by norm_num [AZNFSC_MAX_BLOCK_SIZE], rfl,
    by norm_num [AZNFSC_MAX_FILE_SIZE, AZNFSC_MAX_BLOCK_SIZE]⟩

/-- Claim C10: in every aznfsc_cfg value the userspace readdir and data
cache enable flags are true (they are const members initialized to true, so
no configuration path can disable them), while the kernel readdir/data
cache flags and the userspace attribute cache flag are mutable and can be
turned off. -/
theorem const_user_caches (c : aznfsc_cfg) :
    c.cache_readdir_user_enable = true ∧
    c.cache_data_user_enable = true ∧
    (∃ c2 : aznfsc_cfg, c2.cache_readdir_kernel_enable = false ∧
      c2.cache_data_kernel_enable = false ∧
      c2.cache_attr_user_enable = false ∧
      c2.cache_readdir_user_enable = true ∧
      c2.cache_data_user_enable = true) := by
  refine ⟨rfl, rfl,
    ⟨⟨false, -1, -1, -1, -1, -1, AZNFSCFG_LOOKUPCACHE_DEF, .INVALID,
      false, false, -1, false, -1, false, true, nodrc_default⟩,
     rfl, rfl, rfl, rfl, rfl⟩⟩

end AZNFS
